import Mathlib

/-!
Verification of the conversation-and-context-management core of the
Cortex-Ai chat client (`AI.py`), shallowly embedded in Lean 4.

The embedding covers:
* the JSON data model used by the two persistence files,
* `load_saved_chats` / `persist_saved_chats` (Conversation Store),
* `load_user_settings` and the session-state default wiring (Settings Store),
* the context builder in the chat-input handler (`messages_for_ai`,
  `profile_context`),
* the session transitions: send message, new conversation, select
  conversation, delete conversation, clear all.

File I/O and the `json` library are boundaries: a persisted file is modelled
by the states the code distinguishes (absent, unreadable, malformed JSON,
well-formed JSON value); Python exceptions are modelled by `Except`.
Python string truthiness is non-emptiness; `list[-3:]` is
`drop (length - 3)` with truncated subtraction.
-/

namespace CortexAi

/-- A chat message as stored in `st.session_state.messages`:
a dict `{'role': ..., 'content': ...}` with string values. -/
structure Message where
  role : String
  content : String
deriving DecidableEq, Repr

/-- The JSON value data model (what Python's `json.load` can return). -/
inductive Json where
  | str : String → Json
  | int : Int → Json
  | bool : Bool → Json
  | null : Json
  | arr : List Json → Json
  | obj : List (String × Json) → Json
deriving Repr

/-- First-match key lookup in an object's key/value list (Python dicts have
unique keys, so first match is the match). -/
def jlookup : List (String × Json) → String → Option Json
  | [], _ => none
  | (k, v) :: rest, key => if k = key then some v else jlookup rest key

/-- Python exceptions that the persistence layer can raise or catch. -/
inductive PyExn where
  | jsonDecodeError
  | fileNotFoundError
  | permissionError
  | attributeError
deriving DecidableEq, Repr

/-- The states of a persisted JSON file that the code distinguishes:
absent, unreadable (open raises `PermissionError`), unparsable
(`json.JSONDecodeError`), or holding a well-formed JSON value. -/
inductive FileState where
  | absent
  | unreadable
  | malformed
  | wellFormed : Json → FileState

/-- Opening and `json.load`-ing the file, before any exception handling. -/
def readJsonFile : FileState → Except PyExn Json
  | .absent => .error .fileNotFoundError
  | .unreadable => .error .permissionError
  | .malformed => .error .jsonDecodeError
  | .wellFormed j => .ok j

/-- `load_saved_chats` with its exception behaviour explicit: the `except`
clause catches `JSONDecodeError`, `FileNotFoundError` and `PermissionError`
and returns `[]`; a well-formed value passes the `isinstance(data, list)`
check or is replaced by `[]`. -/
def load_saved_chats_exc (f : FileState) : Except PyExn (List Json) :=
  match f with
  | .absent => .ok []
  | f =>
    match readJsonFile f with
    | .ok (Json.arr l) => .ok l
    | .ok _ => .ok []
    | .error .jsonDecodeError => .ok []
    | .error .fileNotFoundError => .ok []
    | .error .permissionError => .ok []
    | .error e => .error e

/-- `load_saved_chats` as its callers see it. -/
def load_saved_chats (f : FileState) : List Json :=
  match load_saved_chats_exc f with
  | .ok l => l
  | .error _ => []

/-- `persist_saved_chats`: `json.dump` the full list, overwriting the file.
The `json` library round-trips every value it serialises, so the resulting
file state holds exactly the dumped array. -/
def persist_saved_chats (chats : List Json) : FileState :=
  .wellFormed (.arr chats)

/-- `load_user_settings` with its exception behaviour explicit: absent file
returns `{}`; caught read/parse errors return `{}`; any well-formed JSON
value is returned as-is (no shape validation). -/
def load_user_settings_exc (f : FileState) : Except PyExn Json :=
  match f with
  | .absent => .ok (.obj [])
  | f =>
    match readJsonFile f with
    | .ok j => .ok j
    | .error .jsonDecodeError => .ok (.obj [])
    | .error .fileNotFoundError => .ok (.obj [])
    | .error .permissionError => .ok (.obj [])
    | .error e => .error e

/-- `load_user_settings` as its callers see it. -/
def load_user_settings (f : FileState) : Json :=
  match load_user_settings_exc f with
  | .ok j => j
  | .error _ => .obj []

/-- Python `saved_settings.get(key, default)`: on a dict, the stored value
or the default; on any non-dict value, `AttributeError`. -/
def settings_get (saved : Json) (key : String) (dflt : Json) : Except PyExn Json :=
  match saved with
  | .obj kvs => .ok ((jlookup kvs key).getD dflt)
  | _ => .error .attributeError

/-- A saved-chat entry as built by the "+ New conversation" handler:
`{'id': ..., 'name': ..., 'timestamp': ..., 'model': ..., 'backend': ...,
'messages': [...]}`. -/
structure ChatEntry where
  id : String
  name : String
  timestamp : String
  model : String
  backend : String
  messages : List Message
deriving DecidableEq, Repr

/-- The JSON value of a message dict. -/
def encodeMsg (m : Message) : Json :=
  .obj [("role", .str m.role), ("content", .str m.content)]

/-- The JSON value of a saved-chat entry, keys in the order the handler
writes them. -/
def encodeChat (c : ChatEntry) : Json :=
  .obj [("id", .str c.id), ("name", .str c.name), ("timestamp", .str c.timestamp),
        ("model", .str c.model), ("backend", .str c.backend),
        ("messages", .arr (c.messages.map encodeMsg))]

/-- Reading a message dict back by the keys the code accesses
(`message['role']`, `message['content']`). -/
def decodeMsg : Json → Option Message
  | .obj kvs =>
    match jlookup kvs "role", jlookup kvs "content" with
    | some (.str r), some (.str c) => some ⟨r, c⟩
    | _, _ => none
  | _ => none

/-- Reading a list of message dicts back, failing if any element fails. -/
def decodeMsgs : List Json → Option (List Message)
  | [] => some []
  | j :: rest =>
    match decodeMsg j, decodeMsgs rest with
    | some m, some ms => some (m :: ms)
    | _, _ => none

/-- Reading a saved-chat entry back by the keys the code accesses
(`entry['id']`, `entry['name']`, `entry['messages']`, ...). -/
def decodeChat : Json → Option ChatEntry
  | .obj kvs =>
    match jlookup kvs "id", jlookup kvs "name", jlookup kvs "timestamp",
          jlookup kvs "model", jlookup kvs "backend", jlookup kvs "messages" with
    | some (.str i), some (.str n), some (.str t), some (.str mo), some (.str b),
      some (.arr ms) =>
      match decodeMsgs ms with
      | some msgs => some ⟨i, n, t, mo, b, msgs⟩
      | none => none
    | _, _, _, _, _, _ => none
  | _ => none

/-- Reading a list of saved-chat entries back, failing if any element fails. -/
def decodeChats : List Json → Option (List ChatEntry)
  | [] => some []
  | j :: rest =>
    match decodeChat j, decodeChats rest with
    | some c, some cs => some (c :: cs)
    | _, _ => none

/-- The full session state the sidebar and chat handlers touch
(`st.session_state` plus the chat-history file). -/
structure State where
  messages : List Message
  saved_chats : List ChatEntry
  selected_chat_id : Option String
  rename_input : String
  backend : String
  model_name : String
  profile_name : String
  profile_email : String
  profile_mobile : String
  profile_address : String
  history_file : FileState

/-- The populated profile clauses, in the fixed source order
name, email, mobile, address (Python string truthiness = non-empty). -/
def profile_parts (s : State) : List String :=
  (if s.profile_name ≠ "" then ["My name is " ++ s.profile_name] else []) ++
  (if s.profile_email ≠ "" then ["my email is " ++ s.profile_email] else []) ++
  (if s.profile_mobile ≠ "" then ["my phone number is " ++ s.profile_mobile] else []) ++
  (if s.profile_address ≠ "" then ["my address is " ++ s.profile_address] else [])

/-- `profile_context`: empty when all four profile fields are empty,
otherwise the joined clause sentence. -/
def profile_context (s : State) : String :=
  if s.profile_name ≠ "" ∨ s.profile_email ≠ "" ∨ s.profile_mobile ≠ "" ∨
     s.profile_address ≠ "" then
    "User Profile: " ++ String.intercalate ", " (profile_parts s) ++ ". "
  else ""

/-- Python `lst[-3:]`: the last three elements, or the whole list when it is
shorter. -/
def lastThree (l : List Message) : List Message :=
  l.drop (l.length - 3)

/-- The system message injected when profile data exists. -/
def system_message (s : State) : Message :=
  ⟨"system", profile_context s ++
    "Please use this information when relevant to provide personalized responses."⟩

/-- `messages_for_ai`: the submission window built from the active sequence
`msgs` (the just-appended user message included). -/
def messages_for_ai (s : State) (msgs : List Message) : List Message :=
  if profile_context s ≠ "" then
    system_message s :: lastThree msgs
  else
    lastThree msgs

/-- The possible outcomes of the completion attempt, following the handler's
branches: `openrouter` import failure, missing API key, a response with the
expected `choices[0].message` shape, a response without it, and an exception
from `client.chat.send` (carrying `type(e).__name__` and `str(e)`). -/
inductive CompletionOutcome where
  | libMissing
  | noApiKey
  | ok : String → CompletionOutcome
  | badShape : String → CompletionOutcome
  | exn : String → String → CompletionOutcome

/-- The `full_response` string the handler ends up with in each branch. -/
def full_response : CompletionOutcome → String
  | .libMissing => "⚠️ openrouter library not installed. Run: pip install openrouter"
  | .noApiKey => "⚠️ Hack Club API key not configured. Set the HACKCLUB_API_KEY environment variable."
  | .ok t => t
  | .badShape r => "❌ Hack Club API: Unexpected response: " ++ r
  | .exn ty msg => "❌ Hack Club API error: " ++ ty ++ ": " ++ msg

/-- The chat-input handler: append the user message, build the context
window, and always append exactly one assistant message with
`full_response`. Returns the new state and the submitted window.
The handler only runs when `st.chat_input` yields truthy (non-empty) text. -/
def send_message (s : State) (text : String) (outcome : CompletionOutcome) :
    State × List Message :=
  let msgs1 := s.messages ++ [⟨"user", text⟩]
  let submitted := messages_for_ai s msgs1
  ({ s with messages := msgs1 ++ [⟨"assistant", full_response outcome⟩] }, submitted)

/-- The "+ New conversation" handler. The clock is an input: `now_id` is
`datetime.now(UTC).strftime('%Y%m%d%H%M%S%f')` and `now_iso` the ISO
timestamp. -/
def new_conversation (now_id now_iso : String) (s : State) : State :=
  if s.messages ≠ [] then
    let entry : ChatEntry :=
      { id := now_id
        name := "Chat " ++ toString (s.saved_chats.length + 1)
        timestamp := now_iso
        model := s.model_name
        backend := s.backend
        messages := s.messages }
    { s with saved_chats := entry :: s.saved_chats
             history_file := persist_saved_chats ((entry :: s.saved_chats).map encodeChat)
             messages := []
             selected_chat_id := none
             rename_input := "" }
  else
    { s with messages := [], selected_chat_id := none, rename_input := "" }

/-- The sidebar enumerates `st.session_state.saved_chats[:10]`. -/
def sidebar_entries (s : State) : List ChatEntry :=
  s.saved_chats.take 10

/-- The per-entry chat button: load the entry's messages and select it.
Only entries of `sidebar_entries` have a button; `i` indexes into them. -/
def select_conversation (i : Nat) (s : State) : State :=
  match (sidebar_entries s)[i]? with
  | some entry =>
    { s with messages := entry.messages
             selected_chat_id := some entry.id
             rename_input := entry.name }
  | none => s

/-- The per-entry delete button: filter out every chat whose id matches,
persist, and clear the active session if the deleted id was selected.
Only ids of `sidebar_entries` have a button, but the effect is defined for
any id. -/
def delete_conversation (cid : String) (s : State) : State :=
  let chats := s.saved_chats.filter (fun c => c.id ≠ cid)
  let s1 := { s with saved_chats := chats
                     history_file := persist_saved_chats (chats.map encodeChat) }
  if s.selected_chat_id = some cid then
    { s1 with messages := [], selected_chat_id := none }
  else
    s1

/-- The "Clear all conversations" button. -/
def clear_all (s : State) : State :=
  { s with saved_chats := []
           history_file := persist_saved_chats []
           messages := []
           selected_chat_id := none }

/-- The session transitions (the clock and the completion outcome are
inputs of the respective transitions). -/
inductive Transition where
  | sendMessage : String → CompletionOutcome → Transition
  | newConversation : String → String → Transition
  | selectConversation : Nat → Transition
  | deleteConversation : String → Transition
  | clearAll : Transition

/-- One step of the session controller. `st.chat_input` only fires on
truthy text, so empty text is a no-op. -/
def step : Transition → State → State
  | .sendMessage text outcome, s =>
    if text = "" then s else (send_message s text outcome).1
  | .newConversation now_id now_iso, s => new_conversation now_id now_iso s
  | .selectConversation i, s => select_conversation i s
  | .deleteConversation cid, s => delete_conversation cid s
  | .clearAll, s => clear_all s

/-- All four profile fields empty (the negation of the condition guarding
the system-message injection). -/
def profileEmpty (s : State) : Prop :=
  s.profile_name = "" ∧ s.profile_email = "" ∧ s.profile_mobile = "" ∧
  s.profile_address = ""

instance (s : State) : Decidable (profileEmpty s) := by
  unfold profileEmpty; infer_instance

/-- The role invariant of the session: every active and every saved message
has role `user` or `assistant`. -/
def RolesOK (s : State) : Prop :=
  (∀ m ∈ s.messages, m.role = "user" ∨ m.role = "assistant") ∧
  (∀ c ∈ s.saved_chats, ∀ m ∈ c.messages, m.role = "user" ∨ m.role = "assistant")

instance (s : State) : Decidable (RolesOK s) := by
  unfold RolesOK; infer_instance

/-- The effective settings picked up by the session-state initialisation,
each a `saved_settings.get(key, default)` in source order. -/
structure EffSettings where
  backend : Json
  model_name : Json
  theme : Json
  profile_name : Json
  profile_mobile : Json
  profile_email : Json
  profile_address : Json

/-- The session-state default wiring: seven `.get` calls with the
documented defaults, each able to raise `AttributeError` on a non-dict. -/
def effective_settings (saved : Json) : Except PyExn EffSettings := do
  let backend ← settings_get saved "backend" (.str "hackclub")
  let model_name ← settings_get saved "model_name" (.str "hackclub/model1")
  let theme ← settings_get saved "theme" (.str "dark")
  let profile_name ← settings_get saved "profile_name" (.str "")
  let profile_mobile ← settings_get saved "profile_mobile" (.str "")
  let profile_email ← settings_get saved "profile_email" (.str "")
  let profile_address ← settings_get saved "profile_address" (.str "")
  return ⟨backend, model_name, theme, profile_name, profile_mobile,
          profile_email, profile_address⟩

/-- A settings object that explicitly contains the documented defaults. -/
def defaults_obj : Json :=
  .obj [("backend", .str "hackclub"), ("model_name", .str "hackclub/model1"),
        ("theme", .str "dark"), ("profile_name", .str ""),
        ("profile_mobile", .str ""), ("profile_email", .str ""),
        ("profile_address", .str "")]

/-- A fresh session with no profile data. -/
def initState : State :=
  { messages := [], saved_chats := [], selected_chat_id := none,
    rename_input := "", backend := "hackclub", model_name := "hackclub/model1",
    profile_name := "", profile_email := "", profile_mobile := "",
    profile_address := "", history_file := .absent }

/-- A session whose profile has exactly name "Ana" and email "a@b.com". -/
def anaState : State :=
  { initState with profile_name := "Ana", profile_email := "a@b.com" }

/-- A saved-chat entry with a given id (for concrete instantiations). -/
def sampleChat (i : String) : ChatEntry :=
  { id := i, name := "Chat " ++ i, timestamp := "t", model := "hackclub/model1",
    backend := "hackclub", messages := [⟨"user", "hi"⟩, ⟨"assistant", "hello"⟩] }

/-- A session holding eleven saved chats with distinct ids. -/
def elevenState : State :=
  { initState with
      saved_chats := ((List.range 11).map (fun n => sampleChat (toString n))) }

/-! ## Helper lemmas -/

theorem userProfile_append_ne_empty (x y : String) :
    "User Profile: " ++ x ++ y ≠ "" := by
  intro h
  have hlen := congrArg String.length h
  rw [String.length_append, String.length_append] at hlen
  have h1 : ("User Profile: " : String).length = 14 := rfl
  have h2 : ("" : String).length = 0 := rfl
  rw [h1, h2] at hlen
  omega

theorem profile_context_eq_empty_iff (s : State) :
    profile_context s = "" ↔ profileEmpty s := by
  unfold profile_context profileEmpty
  by_cases h : s.profile_name ≠ "" ∨ s.profile_email ≠ "" ∨ s.profile_mobile ≠ "" ∨
      s.profile_address ≠ ""
  · rw [if_pos h]
    constructor
    · intro heq; exact absurd heq (userProfile_append_ne_empty _ _)
    · rintro ⟨h1, h2, h3, h4⟩
      rcases h with h'|h'|h'|h'
      · exact absurd h1 h'
      · exact absurd h2 h'
      · exact absurd h3 h'
      · exact absurd h4 h'
  · rw [if_neg h]
    push_neg at h
    exact iff_of_true rfl h

theorem profile_context_of_not_empty (s : State) (h : ¬ profileEmpty s) :
    profile_context s =
      "User Profile: " ++ String.intercalate ", " (profile_parts s) ++ ". " := by
  unfold profile_context
  rw [if_pos ?hc]
  case hc =>
    unfold profileEmpty at h
    by_contra hcon
    push_neg at hcon
    exact h hcon

theorem profile_context_ne_of_not_empty (s : State) (h : ¬ profileEmpty s) :
    profile_context s ≠ "" :=
  fun heq => h ((profile_context_eq_empty_iff s).mp heq)

theorem length_lastThree (l : List Message) :
    (lastThree l).length = min l.length 3 := by
  unfold lastThree
  rw [List.length_drop]
  omega

/-! ## Claims -/

/-- C1: for any active sequence of length N and any profile state, the
submission window has length `min(N,3)` when all four profile fields are
empty and `min(N,3)+1` when at least one is populated; in the latter case
element 0 has role `system` and the remaining elements are the last
`min(N,3)` active messages in order (a suffix of the sequence); when
`N < 3` the whole sequence is submitted, and building is a total function
(it never fails). -/
theorem context_window_bound (s : State) (msgs : List Message) :
    (profileEmpty s →
      messages_for_ai s msgs = lastThree msgs ∧
      (messages_for_ai s msgs).length = min msgs.length 3) ∧
    (¬ profileEmpty s →
      (messages_for_ai s msgs).length = min msgs.length 3 + 1 ∧
      (messages_for_ai s msgs).head?.map Message.role = some "system" ∧
      (messages_for_ai s msgs).tail = lastThree msgs) ∧
    lastThree msgs <:+ msgs ∧
    (lastThree msgs).length = min msgs.length 3 ∧
    (msgs.length < 3 → lastThree msgs = msgs) := by
  refine ⟨?_, ?_, List.drop_suffix _ _, length_lastThree msgs, ?_⟩
  · intro hp
    have hpc : profile_context s = "" := (profile_context_eq_empty_iff s).mpr hp
    unfold messages_for_ai
    rw [if_neg (not_not_intro hpc)]
    exact ⟨rfl, length_lastThree msgs⟩
  · intro hp
    have hpc := profile_context_ne_of_not_empty s hp
    unfold messages_for_ai
    rw [if_pos hpc]
    refine ⟨?_, rfl, rfl⟩
    rw [List.length_cons, length_lastThree]
  · intro hlt
    unfold lastThree
    have h0 : msgs.length - 3 = 0 := by omega
    rw [h0, List.drop_zero]

/-- Witness for C1 at the Ana profile and a single user message. -/
theorem context_window_bound_witness :
    (messages_for_ai anaState [⟨"user", "hi"⟩]).length = min 1 3 + 1 ∧
    (messages_for_ai anaState [⟨"user", "hi"⟩]).head?.map Message.role =
      some "system" := by
  have h := (context_window_bound anaState [⟨"user", "hi"⟩]).2.1 (by decide)
  exact ⟨h.1, h.2.1⟩

/-- C3 counterexample: with exactly name "Ana" and email "a@b.com" set and
"hi" the first message, the submitted window is NOT the claimed pair — the
system message's content carries a "User Profile: " prefix the claim
omits. -/
theorem profile_sentence_counterexample :
    messages_for_ai anaState [⟨"user", "hi"⟩] ≠
      [⟨"system", "My name is Ana, my email is a@b.com. Please use this information when relevant to provide personalized responses."⟩,
       ⟨"user", "hi"⟩] := by
  decide

/-- C3 amended: the submitted window for the Ana profile is the pair whose
system content is prefixed with "User Profile: "; in general, whenever some
profile field is populated the window's element 0 is the system message
whose content is "User Profile: " followed by the populated clauses in the
fixed order name, email, mobile, address, joined with ", ", terminated with
a period (and a space), followed by the instruction clause. -/
theorem profile_sentence_amended :
    messages_for_ai anaState [⟨"user", "hi"⟩] =
      [⟨"system", "User Profile: My name is Ana, my email is a@b.com. Please use this information when relevant to provide personalized responses."⟩,
       ⟨"user", "hi"⟩] ∧
    (∀ s : State, ¬ profileEmpty s → ∀ msgs : List Message,
      (messages_for_ai s msgs).head? =
        some ⟨"system",
          "User Profile: " ++ String.intercalate ", " (profile_parts s) ++ ". " ++
          "Please use this information when relevant to provide personalized responses."⟩) := by
  constructor
  · decide
  · intro s hp msgs
    have hpc := profile_context_ne_of_not_empty s hp
    unfold messages_for_ai
    rw [if_pos hpc]
    show some (system_message s) = _
    unfold system_message
    rw [profile_context_of_not_empty s hp]

/-- Witness for the amended C3 at a profile with only a mobile number. -/
theorem profile_sentence_amended_witness :
    (messages_for_ai { initState with profile_mobile := "123" } []).head? =
      some ⟨"system",
        "User Profile: " ++
        String.intercalate ", "
          (profile_parts { initState with profile_mobile := "123" }) ++ ". " ++
        "Please use this information when relevant to provide personalized responses."⟩ :=
  profile_sentence_amended.2 { initState with profile_mobile := "123" } (by decide) []

theorem exn_response_head (ty msg : String) :
    (full_response (.exn ty msg)).data.head? = some '❌' := by
  show (("❌ Hack Club API error: " ++ ty ++ ": " ++ msg)).data.head? = some '❌'
  rw [String.data_append, String.data_append, String.data_append]
  rfl

/-- C2: for any non-empty text and any completion outcome — success, library
missing, credential missing, unexpected response shape, or a provider or
transport exception — the transition appends exactly one user message
`{user, text}` and then exactly one assistant message (the `step` function
is total, so no exception escapes); on failure the assistant content is the
branch's prefixed diagnostic string, and the configuration-missing,
dependency-unavailable and generic-error diagnostics are pairwise
distinct. -/
theorem send_message_one_reply (s : State) (text : String)
    (outcome : CompletionOutcome) (htext : text ≠ "") :
    (step (.sendMessage text outcome) s).messages =
      s.messages ++ [⟨"user", text⟩, ⟨"assistant", full_response outcome⟩] ∧
    full_response .libMissing =
      "⚠️ openrouter library not installed. Run: pip install openrouter" ∧
    full_response .noApiKey =
      "⚠️ Hack Club API key not configured. Set the HACKCLUB_API_KEY environment variable." ∧
    (∀ r, full_response (.badShape r) = "❌ Hack Club API: Unexpected response: " ++ r) ∧
    (∀ ty msg, full_response (.exn ty msg) = "❌ Hack Club API error: " ++ ty ++ ": " ++ msg) ∧
    full_response .libMissing ≠ full_response .noApiKey ∧
    (∀ ty msg, full_response (.exn ty msg) ≠ full_response .libMissing) ∧
    (∀ ty msg, full_response (.exn ty msg) ≠ full_response .noApiKey) := by
  refine ⟨?_, rfl, rfl, fun r => rfl, fun ty msg => rfl, by decide, ?_, ?_⟩
  · simp [step, send_message, htext]
  · intro ty msg h
    have h1 := exn_response_head ty msg
    rw [h] at h1
    exact absurd h1 (by decide)
  · intro ty msg h
    have h1 := exn_response_head ty msg
    rw [h] at h1
    exact absurd h1 (by decide)

/-- Witness for C2 at the fresh session, text "hi", missing API key. -/
theorem send_message_one_reply_witness :
    (step (.sendMessage "hi" .noApiKey) initState).messages =
      initState.messages ++
        [⟨"user", "hi"⟩, ⟨"assistant", full_response .noApiKey⟩] :=
  (send_message_one_reply initState "hi" .noApiKey (by decide)).1

theorem decodeMsg_encodeMsg (m : Message) : decodeMsg (encodeMsg m) = some m := by
  cases m with
  | mk r c => simp [encodeMsg, decodeMsg, jlookup]

theorem decodeMsgs_map_encodeMsg (msgs : List Message) :
    decodeMsgs (msgs.map encodeMsg) = some msgs := by
  induction msgs with
  | nil => rfl
  | cons m rest ih => simp [decodeMsgs, decodeMsg_encodeMsg, ih]

theorem decodeChat_encodeChat (c : ChatEntry) : decodeChat (encodeChat c) = some c := by
  cases c with
  | mk i n t mo b msgs =>
    simp [encodeChat, decodeChat, jlookup, decodeMsgs_map_encodeMsg]

theorem decodeChats_map_encodeChat (recs : List ChatEntry) :
    decodeChats (recs.map encodeChat) = some recs := by
  induction recs with
  | nil => rfl
  | cons c rest ih => simp [decodeChats, decodeChat_encodeChat, ih]

/-- C4: persisting any conversation collection produced by this system with
`persist_saved_chats` and reading it back with `load_saved_chats` yields an
equal collection — the raw JSON list is returned unchanged, and reading the
records back by the keys the code accesses recovers every id, name, and
message (role, content, order) exactly. -/
theorem saveAll_loadAll_roundtrip (recs : List ChatEntry) :
    load_saved_chats (persist_saved_chats (recs.map encodeChat)) =
      recs.map encodeChat ∧
    decodeChats (load_saved_chats (persist_saved_chats (recs.map encodeChat))) =
      some recs := by
  constructor
  · rfl
  · show decodeChats (recs.map encodeChat) = some recs
    exact decodeChats_map_encodeChat recs

/-- C5: starting a new conversation while the active sequence is non-empty
prepends a record to the stored collection whose messages are the current
active sequence, whose id is the current-timestamp string and whose
model/backend come from the current settings; the store is persisted; all
previously stored records follow unchanged (shifted one position later);
afterwards the active sequence is empty and the selected id is null. -/
theorem start_new_conversation_spec (s : State) (now_id now_iso : String)
    (h : s.messages ≠ []) :
    (step (.newConversation now_id now_iso) s).saved_chats =
      { id := now_id
        name := "Chat " ++ toString (s.saved_chats.length + 1)
        timestamp := now_iso
        model := s.model_name
        backend := s.backend
        messages := s.messages } :: s.saved_chats ∧
    (step (.newConversation now_id now_iso) s).history_file =
      persist_saved_chats
        (((step (.newConversation now_id now_iso) s).saved_chats).map encodeChat) ∧
    (step (.newConversation now_id now_iso) s).messages = [] ∧
    (step (.newConversation now_id now_iso) s).selected_chat_id = none ∧
    (step (.newConversation now_id now_iso) s).saved_chats.tail = s.saved_chats := by
  simp only [step]
  unfold new_conversation
  rw [if_pos h]
  exact ⟨rfl, rfl, rfl, rfl, rfl⟩

/-- Witness for C5 at a session holding two messages. -/
theorem start_new_conversation_spec_witness :
    (step (.newConversation "20251012" "iso")
        { initState with messages := [⟨"user", "hi"⟩, ⟨"assistant", "hello"⟩] }).saved_chats =
      { id := "20251012"
        name := "Chat 1"
        timestamp := "iso"
        model := "hackclub/model1"
        backend := "hackclub"
        messages := [⟨"user", "hi"⟩, ⟨"assistant", "hello"⟩] } :: [] :=
  (start_new_conversation_spec
    { initState with messages := [⟨"user", "hi"⟩, ⟨"assistant", "hello"⟩] }
    "20251012" "iso" (by decide)).1

/-- C6: deleting id `cid` removes every stored record whose id matches and
persists the result, keeping the surviving records in order; if `cid` was
the selected conversation the active sequence becomes empty and the
selected id becomes null, and for any other id both are unchanged. -/
theorem delete_conversation_spec (s : State) (cid : String) :
    (∀ c ∈ (step (.deleteConversation cid) s).saved_chats, c.id ≠ cid) ∧
    (step (.deleteConversation cid) s).saved_chats.Sublist s.saved_chats ∧
    (∀ c ∈ s.saved_chats, c.id ≠ cid →
      c ∈ (step (.deleteConversation cid) s).saved_chats) ∧
    (step (.deleteConversation cid) s).history_file =
      persist_saved_chats
        (((step (.deleteConversation cid) s).saved_chats).map encodeChat) ∧
    (s.selected_chat_id = some cid →
      (step (.deleteConversation cid) s).messages = [] ∧
      (step (.deleteConversation cid) s).selected_chat_id = none) ∧
    (s.selected_chat_id ≠ some cid →
      (step (.deleteConversation cid) s).messages = s.messages ∧
      (step (.deleteConversation cid) s).selected_chat_id = s.selected_chat_id) := by
  simp only [step, delete_conversation]
  by_cases hsel : s.selected_chat_id = some cid
  · simp only [if_pos hsel]
    refine ⟨?_, List.filter_sublist _, ?_, ?_, ?_, ?_⟩
    · intro c hc
      rw [List.mem_filter] at hc
      simpa using hc.2
    · intro c hc hid
      rw [List.mem_filter]
      exact ⟨hc, by simp [hid]⟩
    · trivial
    · intro _
      exact ⟨by trivial, by trivial⟩
    · intro hne
      exact absurd hsel hne
  · simp only [if_neg hsel]
    refine ⟨?_, List.filter_sublist _, ?_, ?_, ?_, ?_⟩
    · intro c hc
      rw [List.mem_filter] at hc
      simpa using hc.2
    · intro c hc hid
      rw [List.mem_filter]
      exact ⟨hc, by simp [hid]⟩
    · trivial
    · intro heq
      exact absurd heq hsel
    · intro _
      exact ⟨by trivial, by trivial⟩

/-- Witness for C6: deleting the selected chat "1" from a two-chat store. -/
theorem delete_conversation_spec_witness :
    (∀ c ∈ (step (.deleteConversation "1")
        { initState with saved_chats := [sampleChat "1", sampleChat "2"],
                         selected_chat_id := some "1",
                         messages := [⟨"user", "hi"⟩] }).saved_chats,
      c.id ≠ "1") ∧
    (step (.deleteConversation "1")
        { initState with saved_chats := [sampleChat "1", sampleChat "2"],
                         selected_chat_id := some "1",
                         messages := [⟨"user", "hi"⟩] }).messages = [] := by
  have h := delete_conversation_spec
    { initState with saved_chats := [sampleChat "1", sampleChat "2"],
                     selected_chat_id := some "1",
                     messages := [⟨"user", "hi"⟩] } "1"
  exact ⟨h.1, (h.2.2.2.2.1 rfl).1⟩

/-- C7: for every storage state — absent, unreadable, malformed JSON, or
any well-formed JSON value — `load_saved_chats` returns without raising
(its exception-level version always returns `.ok`); the result is `[]` for
absent, unreadable, malformed, or non-list content, and exactly the list
for well-formed list content. -/
theorem loadAll_total_spec :
    (∀ f, load_saved_chats_exc f = .ok (load_saved_chats f)) ∧
    load_saved_chats .absent = [] ∧
    load_saved_chats .unreadable = [] ∧
    load_saved_chats .malformed = [] ∧
    (∀ l, load_saved_chats (.wellFormed (.arr l)) = l) ∧
    (∀ j, (∀ l, j ≠ .arr l) → load_saved_chats (.wellFormed j) = []) := by
  refine ⟨?_, rfl, rfl, rfl, fun l => rfl, ?_⟩
  · intro f
    cases f with
    | wellFormed j => cases j <;> rfl
    | _ => rfl
  · intro j hj
    cases j with
    | arr l => exact absurd rfl (hj l)
    | _ => rfl

/-- Witness for C7 at a well-formed non-list file content. -/
theorem loadAll_total_spec_witness :
    load_saved_chats (.wellFormed (.str "oops")) = [] :=
  loadAll_total_spec.2.2.2.2.2 (.str "oops") (fun _ h => Json.noConfusion h)

theorem effective_settings_obj (kvs : List (String × Json)) :
    effective_settings (.obj kvs) = .ok
      ⟨(jlookup kvs "backend").getD (.str "hackclub"),
       (jlookup kvs "model_name").getD (.str "hackclub/model1"),
       (jlookup kvs "theme").getD (.str "dark"),
       (jlookup kvs "profile_name").getD (.str ""),
       (jlookup kvs "profile_mobile").getD (.str ""),
       (jlookup kvs "profile_email").getD (.str ""),
       (jlookup kvs "profile_address").getD (.str "")⟩ := rfl

/-- C8: `load_user_settings` returns without raising for every persisted
content state (absent, unreadable, unparsable, or any well-formed value);
the effective settings obtained from empty or absent storage equal those
from a store explicitly containing the documented defaults
(backend "hackclub", model_name "hackclub/model1", theme "dark", profile
fields ""); and any individually absent field takes its documented
default. -/
theorem settings_defaults_spec :
    (∀ f, load_user_settings_exc f = .ok (load_user_settings f)) ∧
    effective_settings (load_user_settings .absent) =
      effective_settings (load_user_settings (.wellFormed defaults_obj)) ∧
    effective_settings (load_user_settings .malformed) =
      effective_settings (load_user_settings .absent) ∧
    effective_settings (load_user_settings .unreadable) =
      effective_settings (load_user_settings .absent) ∧
    (∀ kvs, jlookup kvs "backend" = none →
      ∃ eff, effective_settings (.obj kvs) = .ok eff ∧
        eff.backend = .str "hackclub") ∧
    (∀ kvs, jlookup kvs "model_name" = none →
      ∃ eff, effective_settings (.obj kvs) = .ok eff ∧
        eff.model_name = .str "hackclub/model1") ∧
    (∀ kvs, jlookup kvs "theme" = none →
      ∃ eff, effective_settings (.obj kvs) = .ok eff ∧
        eff.theme = .str "dark") ∧
    (∀ kvs, jlookup kvs "profile_name" = none → jlookup kvs "profile_email" = none →
        jlookup kvs "profile_mobile" = none → jlookup kvs "profile_address" = none →
      ∃ eff, effective_settings (.obj kvs) = .ok eff ∧
        eff.profile_name = .str "" ∧ eff.profile_email = .str "" ∧
        eff.profile_mobile = .str "" ∧ eff.profile_address = .str "") := by
  refine ⟨?_, rfl, rfl, rfl, ?_, ?_, ?_, ?_⟩
  · intro f
    cases f <;> rfl
  · intro kvs h
    exact ⟨_, effective_settings_obj kvs, by rw [h]; rfl⟩
  · intro kvs h
    exact ⟨_, effective_settings_obj kvs, by rw [h]; rfl⟩
  · intro kvs h
    exact ⟨_, effective_settings_obj kvs, by rw [h]; rfl⟩
  · intro kvs h1 h2 h3 h4
    exact ⟨_, effective_settings_obj kvs, by rw [h1]; rfl, by rw [h2]; rfl, by rw [h3]; rfl, by rw [h4]; rfl⟩

/-- Witness for C8 at the empty settings object. -/
theorem settings_defaults_spec_witness :
    ∃ eff, effective_settings (.obj []) = .ok eff ∧ eff.backend = .str "hackclub" :=
  settings_defaults_spec.2.2.2.2.1 [] rfl

/-- C9: the sidebar enumerates only the first ten stored records
(`saved_chats[:10]`), so — ids being unique in the store — a record at
position 10 or later is not among the enumerated entries and its id is not
among the selectable/deletable ids. -/
theorem sidebar_only_first_ten (s : State)
    (hnodup : (s.saved_chats.map ChatEntry.id).Nodup)
    (i : Nat) (h10 : 10 ≤ i) (hi : i < s.saved_chats.length) :
    sidebar_entries s = s.saved_chats.take 10 ∧
    (s.saved_chats.get ⟨i, hi⟩).id ∉ (sidebar_entries s).map ChatEntry.id ∧
    s.saved_chats.get ⟨i, hi⟩ ∉ sidebar_entries s := by
  have hid : (s.saved_chats.get ⟨i, hi⟩).id ∉ (sidebar_entries s).map ChatEntry.id := by
    intro hmem
    unfold sidebar_entries at hmem
    rw [List.map_take, List.mem_take_iff_getElem] at hmem
    obtain ⟨m, hm, he⟩ := hmem
    have hmlen : m < (s.saved_chats.map ChatEntry.id).length :=
      hm.trans_le (Nat.min_le_right _ _)
    have hilen : i < (s.saved_chats.map ChatEntry.id).length := by simpa using hi
    have he2 : (s.saved_chats.map ChatEntry.id).get ⟨m, hmlen⟩ =
        (s.saved_chats.map ChatEntry.id).get ⟨i, hilen⟩ := by
      simpa using he
    have hmi := (List.Nodup.get_inj_iff hnodup).mp he2
    have hmi2 : m = i := congrArg Fin.val hmi
    omega
  exact ⟨rfl, hid, fun hmem => hid (List.mem_map_of_mem _ hmem)⟩

/-- Witness for C9: in an eleven-chat store, the record at position 10 is
not selectable. -/
theorem sidebar_only_first_ten_witness :
    (elevenState.saved_chats.get ⟨10, by decide⟩).id ∉
      (sidebar_entries elevenState).map ChatEntry.id := by
  have h := sidebar_only_first_ten elevenState (by decide) 10 (by decide) (by decide)
  exact h.2.1

/-- C10: every transition preserves the invariant that all active and all
stored messages have role `user` or `assistant`; the `system` role occurs
only in the submission window built for a single send — any system-role
element of that window is the profile message itself — and that window is
never stored. -/
theorem roles_invariant (t : Transition) (s : State) (h : RolesOK s) :
    RolesOK (step t s) ∧
    (∀ text outcome m, m ∈ (send_message s text outcome).2 →
      m.role = "system" → m = system_message s) := by
  constructor
  · cases t with
    | sendMessage text outcome =>
      simp only [step]
      by_cases ht : text = ""
      · rw [if_pos ht]; exact h
      · rw [if_neg ht]
        unfold send_message RolesOK
        constructor
        · intro m hm
          rw [List.mem_append] at hm
          rcases hm with hm | hm
          · rw [List.mem_append] at hm
            rcases hm with hm | hm
            · exact h.1 m hm
            · rw [List.mem_singleton] at hm; subst hm; left; rfl
          · rw [List.mem_singleton] at hm; subst hm; right; rfl
        · exact h.2
    | newConversation now_id now_iso =>
      simp only [step]
      unfold new_conversation
      by_cases hm : s.messages ≠ []
      · rw [if_pos hm]
        constructor
        · intro m hmm
          exact absurd hmm (List.not_mem_nil m)
        · intro c hc m hmc
          rw [List.mem_cons] at hc
          rcases hc with hc | hc
          · subst hc; exact h.1 m hmc
          · exact h.2 c hc m hmc
      · rw [if_neg hm]
        exact ⟨fun m hmm => absurd hmm (List.not_mem_nil m), h.2⟩
    | selectConversation i =>
      simp only [step]
      unfold select_conversation
      rcases hget : (sidebar_entries s)[i]? with _ | entry
      · simp only [hget]
        exact h
      · simp only [hget]
        constructor
        · intro m hm
          have hentry : entry ∈ sidebar_entries s := List.getElem?_mem hget
          have hsaved : entry ∈ s.saved_chats := List.take_subset _ _ hentry
          exact h.2 entry hsaved m hm
        · exact h.2
    | deleteConversation cid =>
      simp only [step]
      unfold delete_conversation
      by_cases hsel : s.selected_chat_id = some cid
      · rw [if_pos hsel]
        exact ⟨fun m hm => absurd hm (List.not_mem_nil m),
               fun c hc => h.2 c (List.mem_of_mem_filter hc)⟩
      · rw [if_neg hsel]
        exact ⟨h.1, fun c hc => h.2 c (List.mem_of_mem_filter hc)⟩
    | clearAll =>
      exact ⟨fun m hm => absurd hm (List.not_mem_nil m),
             fun c hc => absurd hc (List.not_mem_nil c)⟩
  · intro text outcome m hm hrole
    show m = system_message s
    have hm2 : m ∈ messages_for_ai s (s.messages ++ [⟨"user", text⟩]) := hm
    unfold messages_for_ai at hm2
    by_cases hpc : profile_context s ≠ ""
    · rw [if_pos hpc] at hm2
      rw [List.mem_cons] at hm2
      rcases hm2 with hm2 | hm2
      · exact hm2
      · exfalso
        have hm3 : m ∈ s.messages ++ [⟨"user", text⟩] := List.drop_subset _ _ hm2
        rw [List.mem_append] at hm3
        rcases hm3 with hm3 | hm3
        · rcases h.1 m hm3 with hr | hr <;>
            (rw [hrole] at hr; exact absurd hr (by decide))
        · rw [List.mem_singleton] at hm3
          subst hm3
          simp at hrole
    · rw [if_neg hpc] at hm2
      exfalso
      have hm3 : m ∈ s.messages ++ [⟨"user", text⟩] := List.drop_subset _ _ hm2
      rw [List.mem_append] at hm3
      rcases hm3 with hm3 | hm3
      · rcases h.1 m hm3 with hr | hr <;>
          (rw [hrole] at hr; exact absurd hr (by decide))
      · rw [List.mem_singleton] at hm3
        subst hm3
        simp at hrole

/-- Witness for C10: a send on the Ana session preserves the role
invariant. -/
theorem roles_invariant_witness :
    RolesOK (step (.sendMessage "hi" (.ok "hello")) anaState) := by
  have h := roles_invariant (.sendMessage "hi" (.ok "hello")) anaState (by decide)
  exact h.1

end CortexAi
